import Mathlib

/-!
Verification of the Robot Control & Safety Core of butler-connect.

The Python source (src/core/robot_manager.py, src/safety/safety_monitor.py,
src/control/motion_controller.py) is shallowly embedded below.  Floating-point
numbers are modelled as rationals (ℚ); all the checked properties involve only
comparisons, clamping and polynomial interpolation, which floats and rationals
agree on for the inputs considered.  Transport I/O (UDP sendto, ROS 2 publish,
service calls) is modelled as event logs appended to the state: the embedding
records exactly which packets, twists, mode packets, action calls and error
broadcasts the code dispatches.  Exception-swallowing wrappers (every public
operation catches, logs and returns false) are modelled by total functions:
the only failure sources in the modelled fragment are the explicit early
returns of the source, so no Except layer is needed.  asyncio task handles and
logging calls carry no state relevant to the claims and are not modelled.
-/

set_option linter.unusedVariables false

namespace ButlerConnect

/-- robot_manager.py `RobotMode`: robot operating modes. -/
inductive RobotMode where
  | idle
  | walk
  | run
  | climb
  | stand
  | sit
  | lie
  deriving DecidableEq

/-- robot_manager.py `MotionCommand` dataclass with its field defaults. -/
structure MotionCommand where
  linear_x : ℚ := 0
  linear_y : ℚ := 0
  angular_z : ℚ := 0
  step_height : ℚ := 1/10
  gait_type : String := "trot"
  deriving DecidableEq

/-- robot_manager.py `RobotState` dataclass with its field defaults
(`joint_positions` is materialised to 12 zeros by `__post_init__`). -/
structure RobotState where
  mode : RobotMode := RobotMode.idle
  battery_level : ℚ := 0
  temperature : ℚ := 0
  position : ℚ × ℚ × ℚ := (0, 0, 0)
  orientation : ℚ × ℚ × ℚ := (0, 0, 0)
  velocity : ℚ × ℚ × ℚ := (0, 0, 0)
  joint_positions : List ℚ := List.replicate 12 0
  is_connected : Bool := false
  last_update : ℚ := 0
  deriving DecidableEq

/-- The communication protocol string of robot_manager.py, normalised:
the code branches on `protocol == 'ros2'`, every other value taking the
UDP/mock path. -/
inductive Protocol where
  | udp
  | ros2
  deriving DecidableEq

/-- Abstraction of ros2_client.py `ROS2Client` as seen from robot_manager.py:
`standResult` / `sitResult` are the success booleans the stand/sit service
calls would report (environment-determined), `publishedTwists` and
`actionCalls` log the outgoing traffic, `isShutdown` records `shutdown()`. -/
structure Ros2Client where
  standResult : Bool := false
  sitResult : Bool := false
  publishedTwists : List (ℚ × ℚ × ℚ) := []
  actionCalls : List String := []
  isShutdown : Bool := false
  deriving DecidableEq

/-- The `robot` section of the configuration as read by robot_manager.py:
`ip_address` and `udp_port` are `Option` because `_validate_config` tests key
presence; `max_speed` and `max_angular_speed` are stored with the defaults
`.get` would apply (1.5 and 2.0). -/
structure RobotConfig where
  ip_address : Option String := none
  udp_port : Option Nat := none
  max_speed : ℚ := 3/2
  max_angular_speed : ℚ := 2
  deriving DecidableEq

/-- robot_manager.py `RobotManager` state.  `socket` is `some ()` while the
UDP socket object exists.  `ros2Available` is the environment's answer to
`ROS2Client(config).initialize()`: `some c` if a client would come up as `c`,
`none` if initialization would fail (triggering the UDP fallback).
`sentPackets`, `sentModePackets` and `errorBroadcasts` are event logs of the
UDP motion packets, UDP mode packets, and error-callback broadcasts
(signal, message) actually dispatched. -/
structure RobotManager where
  protocol : Protocol := Protocol.udp
  robot_config : RobotConfig := {}
  robot_state : RobotState := {}
  is_connected : Bool := false
  socket : Option Unit := none
  emergency_stop : Bool := false
  ros2_client : Option Ros2Client := none
  ros2Available : Option Ros2Client := none
  sentPackets : List MotionCommand := []
  sentModePackets : List RobotMode := []
  errorBroadcasts : List (String × String) := []
  deriving DecidableEq

/-- ros2_client.py `publish_twist`: logs the outgoing Twist. -/
def Ros2Client.publishTwist (rc : Ros2Client) (lx ly az : ℚ) : Ros2Client :=
  { rc with publishedTwists := rc.publishedTwists ++ [(lx, ly, az)] }

/-- ros2_client.py `shutdown`. -/
def Ros2Client.shutdown (rc : Ros2Client) : Ros2Client :=
  { rc with isShutdown := true }

/-- robot_manager.py `_validate_motion_command`: reject any component whose
absolute value exceeds the configured maximum (`max_speed` for both linear
components, `max_angular_speed` for the angular one). -/
def RobotManager.validateMotionCommand (m : RobotManager) (c : MotionCommand) : Bool :=
  let maxLinear := m.robot_config.max_speed
  let maxAngular := m.robot_config.max_angular_speed
  if |c.linear_x| > maxLinear then false
  else if |c.linear_y| > maxLinear then false
  else if |c.angular_z| > maxAngular then false
  else true

/-- robot_manager.py `send_motion_command`: fail fast when not connected or
emergency-latched, then validate, then dispatch to the active transport
(publish a Twist in ros2 mode — a missing client is silently skipped by the
`if self.ros2_client:` guard; sendto a packet in UDP mode — a missing socket
is an error returning false). -/
def RobotManager.sendMotionCommand (m : RobotManager) (c : MotionCommand) :
    Bool × RobotManager :=
  if !m.is_connected || m.emergency_stop then (false, m)
  else if !(m.validateMotionCommand c) then (false, m)
  else
    match m.protocol with
    | Protocol.ros2 =>
        (true, { m with ros2_client :=
          m.ros2_client.map (fun rc => rc.publishTwist c.linear_x c.linear_y c.angular_z) })
    | Protocol.udp =>
        match m.socket with
        | none => (false, m)
        | some _ => (true, { m with sentPackets := m.sentPackets ++ [c] })

/-- robot_manager.py `emergency_stop_robot`: set the latch, then call
`send_motion_command` with an all-zero stop command, then broadcast the fixed
("emergency_stop", "Emergency stop activated") signal to every registered
error callback. -/
def RobotManager.emergencyStopRobot (m : RobotManager) : RobotManager :=
  let m1 := { m with emergency_stop := true }
  let m2 := (m1.sendMotionCommand {}).2
  { m2 with errorBroadcasts :=
      m2.errorBroadcasts ++ [("emergency_stop", "Emergency stop activated")] }

/-- robot_manager.py: `ok = self.ros2_client.call_stand() if self.ros2_client
else False`; the call's reported success is `standResult`, and the call is
logged in `actionCalls`. -/
def RobotManager.callStand (m : RobotManager) : Bool × RobotManager :=
  match m.ros2_client with
  | none => (false, m)
  | some rc =>
      (rc.standResult,
       { m with ros2_client := some { rc with actionCalls := rc.actionCalls ++ ["stand"] } })

/-- robot_manager.py: `ok = self.ros2_client.call_sit() if self.ros2_client
else False`. -/
def RobotManager.callSit (m : RobotManager) : Bool × RobotManager :=
  match m.ros2_client with
  | none => (false, m)
  | some rc =>
      (rc.sitResult,
       { m with ros2_client := some { rc with actionCalls := rc.actionCalls ++ ["sit"] } })

/-- robot_manager.py `stand_up`: gate on connectivity/latch; in ros2 mode call
the stand service and only log its result (`ok` is never returned); in UDP
mode send a mode packet (missing socket returns false); then set
`robot_state.mode = STAND` and return true. -/
def RobotManager.standUp (m : RobotManager) : Bool × RobotManager :=
  if !m.is_connected || m.emergency_stop then (false, m)
  else
    match m.protocol with
    | Protocol.ros2 =>
        let m1 := (m.callStand).2
        (true, { m1 with robot_state.mode := RobotMode.stand })
    | Protocol.udp =>
        match m.socket with
        | none => (false, m)
        | some _ =>
            (true, { m with sentModePackets := m.sentModePackets ++ [RobotMode.stand],
                            robot_state.mode := RobotMode.stand })

/-- robot_manager.py `sit_down`: symmetric to `stand_up`. -/
def RobotManager.sitDown (m : RobotManager) : Bool × RobotManager :=
  if !m.is_connected || m.emergency_stop then (false, m)
  else
    match m.protocol with
    | Protocol.ros2 =>
        let m1 := (m.callSit).2
        (true, { m1 with robot_state.mode := RobotMode.sit })
    | Protocol.udp =>
        match m.socket with
        | none => (false, m)
        | some _ =>
            (true, { m with sentModePackets := m.sentModePackets ++ [RobotMode.sit],
                            robot_state.mode := RobotMode.sit })

/-- robot_manager.py `disconnect`: cancel the loop tasks (no modelled state),
send a final stop command through `send_motion_command`, release the
transport (close the socket in UDP mode, shut the client down in ros2 mode),
and mark both connection flags false.  The whole body is wrapped in
try/except, so nothing escapes. -/
def RobotManager.disconnect (m : RobotManager) : RobotManager :=
  let m1 := (m.sendMotionCommand {}).2
  let m2 :=
    match m1.protocol with
    | Protocol.ros2 => { m1 with ros2_client := m1.ros2_client.map Ros2Client.shutdown }
    | Protocol.udp => { m1 with socket := none }
  { m2 with is_connected := false, robot_state.is_connected := false }

/-- robot_manager.py `_validate_config`: ros2 needs no keys; UDP requires
`ip_address` and `udp_port` in the robot section, logging a descriptive error
and returning false on the first missing key. -/
def RobotManager.validateConfig (m : RobotManager) : Bool :=
  match m.protocol with
  | Protocol.ros2 => true
  | Protocol.udp => m.robot_config.ip_address.isSome && m.robot_config.udp_port.isSome

/-- robot_manager.py `initialize` (modelled as `init`): validate the
configuration (returning false on failure), reset the emergency latch
(`_initialize_safety`), and set up the transport — in ros2 mode a failed
client bring-up falls back to the UDP protocol.  All exceptions are caught
and turned into a false return, so the function is total. -/
def RobotManager.init (m : RobotManager) : Bool × RobotManager :=
  if !m.validateConfig then (false, m)
  else
    let m1 := { m with emergency_stop := false }
    match m1.protocol with
    | Protocol.ros2 =>
        match m1.ros2Available with
        | some rc => (true, { m1 with ros2_client := some rc })
        | none => (true, { m1 with protocol := Protocol.udp })
    | Protocol.udp => (true, m1)

/-- safety_monitor.py `SafetyLevel`. -/
inductive SafetyLevel where
  | info
  | warning
  | critical
  | emergency
  deriving DecidableEq

/-- safety_monitor.py `SafetyAction`. -/
inductive SafetyAction where
  | monitor
  | slowDown
  | stop
  | emergencyStop
  | shutdown
  deriving DecidableEq

/-- safety_monitor.py `SafetyAlert` dataclass. -/
structure SafetyAlert where
  id : String
  level : SafetyLevel
  message : String
  action : SafetyAction
  timestamp : ℚ
  resolved : Bool := false
  deriving DecidableEq

/-- The safety thresholds safety_monitor.py reads from its configuration,
stored with the `.get` defaults of the source (battery_critical 10,
temperature_warning 55, max_temperature 65, max_roll/max_pitch 0.5). -/
structure SafetyConfig where
  battery_critical : ℚ := 10
  temperature_warning : ℚ := 55
  max_temperature : ℚ := 65
  max_roll : ℚ := 1/2
  max_pitch : ℚ := 1/2
  deriving DecidableEq

/-- safety_monitor.py `SafetyMonitor` state.  `active_alerts` is the Python
dict keyed by alert id, modelled as an insertion-ordered association list
(`dictInsert` below mirrors dict assignment).  `notified` logs every alert
broadcast to the registered alert callbacks. -/
structure SafetyMonitor where
  config : SafetyConfig := {}
  active_alerts : List (String × SafetyAlert) := []
  safety_enabled : Bool := true
  emergency_stop_active : Bool := false
  notified : List SafetyAlert := []
  deriving DecidableEq

/-- The supervisor together with the robot manager it drives
(`self.robot_manager` in safety_monitor.py). -/
structure SafetySystem where
  mon : SafetyMonitor := {}
  mgr : RobotManager := {}
  deriving DecidableEq

/-- Python dict assignment `d[k] = v` on an insertion-ordered association
list: replace the entry for `k` in place if present, append otherwise. -/
def dictInsert (k : String) (v : SafetyAlert) :
    List (String × SafetyAlert) → List (String × SafetyAlert)
  | [] => [(k, v)]
  | (k', v') :: rest =>
      if k' = k then (k, v) :: rest else (k', v') :: dictInsert k v rest

/-- safety_monitor.py `emergency_stop(reason)`: no-op if already latched;
otherwise latch, store an `emergency_stop` alert stamped `now`, emergency-stop
the robot manager, and notify the alert callbacks. -/
def SafetySystem.monEmergencyStop (s : SafetySystem) (reason : String) (now : ℚ) :
    SafetySystem :=
  if s.mon.emergency_stop_active then s
  else
    let alert : SafetyAlert :=
      { id := "emergency_stop", level := SafetyLevel.emergency, message := reason,
        action := SafetyAction.emergencyStop, timestamp := now }
    { mon := { s.mon with
        emergency_stop_active := true,
        active_alerts := dictInsert "emergency_stop" alert s.mon.active_alerts,
        notified := s.mon.notified ++ [alert] },
      mgr := s.mgr.emergencyStopRobot }

/-- safety_monitor.py `reset_emergency_stop`: no-op if not latched; otherwise
clear the supervisor latch and mark the stored `emergency_stop` alert
resolved.  Nothing else is touched. -/
def SafetySystem.resetEmergencyStop (s : SafetySystem) : SafetySystem :=
  if !s.mon.emergency_stop_active then s
  else
    { s with mon := { s.mon with
        emergency_stop_active := false,
        active_alerts := s.mon.active_alerts.map
          (fun p => if p.1 = "emergency_stop" then (p.1, { p.2 with resolved := true }) else p) } }

/-- safety_monitor.py `_execute_safety_action`: EMERGENCY_STOP escalates to
the supervisor latch, STOP sends one all-zero motion command without
latching, the rest do nothing. -/
def SafetySystem.executeSafetyAction (s : SafetySystem) (a : SafetyAlert) (now : ℚ) :
    SafetySystem :=
  match a.action with
  | SafetyAction.emergencyStop => s.monEmergencyStop a.message now
  | SafetyAction.stop => { s with mgr := (s.mgr.sendMotionCommand {}).2 }
  | _ => s

/-- safety_monitor.py `_handle_alert`: store/update the alert under its id,
execute its action, then notify the alert callbacks. -/
def SafetySystem.handleAlert (s : SafetySystem) (a : SafetyAlert) (now : ℚ) :
    SafetySystem :=
  let s1 := { s with mon := { s.mon with
      active_alerts := dictInsert a.id a s.mon.active_alerts } }
  let s2 := s1.executeSafetyAction a now
  { s2 with mon := { s2.mon with notified := s2.mon.notified ++ [a] } }

/-- safety_monitor.py `_check_connection`. -/
def SafetySystem.checkConnection (s : SafetySystem) (st : RobotState) (now : ℚ) :
    SafetySystem :=
  if !st.is_connected then
    s.handleAlert
      { id := "connection_lost", level := SafetyLevel.critical,
        message := "Robot connection lost", action := SafetyAction.stop,
        timestamp := now } now
  else s

/-- safety_monitor.py `_check_battery`: at or below the critical threshold
raise `battery_critical` (Critical, EMERGENCY_STOP); at or below twice the
critical threshold raise `battery_low` (Warning, MONITOR). -/
def SafetySystem.checkBattery (s : SafetySystem) (st : RobotState) (now : ℚ) :
    SafetySystem :=
  let b := st.battery_level
  let criticalLevel := s.mon.config.battery_critical
  let warningLevel := criticalLevel * 2
  if b ≤ criticalLevel then
    s.handleAlert
      { id := "battery_critical", level := SafetyLevel.critical,
        message := s!"Critical battery level: {b}%",
        action := SafetyAction.emergencyStop, timestamp := now } now
  else if b ≤ warningLevel then
    s.handleAlert
      { id := "battery_low", level := SafetyLevel.warning,
        message := s!"Low battery level: {b}%",
        action := SafetyAction.monitor, timestamp := now } now
  else s

/-- safety_monitor.py `_check_temperature`. -/
def SafetySystem.checkTemperature (s : SafetySystem) (st : RobotState) (now : ℚ) :
    SafetySystem :=
  let temp := st.temperature
  let warningTemp := s.mon.config.temperature_warning
  let criticalTemp := s.mon.config.max_temperature
  if temp ≥ criticalTemp then
    s.handleAlert
      { id := "temperature_critical", level := SafetyLevel.critical,
        message := s!"Critical temperature: {temp}",
        action := SafetyAction.emergencyStop, timestamp := now } now
  else if temp ≥ warningTemp then
    s.handleAlert
      { id := "temperature_high", level := SafetyLevel.warning,
        message := s!"High temperature: {temp}",
        action := SafetyAction.slowDown, timestamp := now } now
  else s

/-- safety_monitor.py `_check_orientation`: roll and pitch are tested
sequentially, each raising its own Critical/EMERGENCY_STOP alert. -/
def SafetySystem.checkOrientation (s : SafetySystem) (st : RobotState) (now : ℚ) :
    SafetySystem :=
  let roll := st.orientation.1
  let pitch := st.orientation.2.1
  let s1 :=
    if |roll| > s.mon.config.max_roll then
      s.handleAlert
        { id := "roll_limit", level := SafetyLevel.critical,
          message := s!"Roll angle exceeded: {roll}",
          action := SafetyAction.emergencyStop, timestamp := now } now
    else s
  if |pitch| > s1.mon.config.max_pitch then
    s1.handleAlert
      { id := "pitch_limit", level := SafetyLevel.critical,
        message := s!"Pitch angle exceeded: {pitch}",
        action := SafetyAction.emergencyStop, timestamp := now } now
  else s1

/-- safety_monitor.py `_check_joint_limits`: a pass stub in the source. -/
def SafetySystem.checkJointLimits (s : SafetySystem) (st : RobotState) (now : ℚ) :
    SafetySystem :=
  s

/-- safety_monitor.py `_check_communication_timeout` (threshold 5 seconds). -/
def SafetySystem.checkCommunicationTimeout (s : SafetySystem) (st : RobotState) (now : ℚ) :
    SafetySystem :=
  let dt := now - st.last_update
  if dt > 5 then
    s.handleAlert
      { id := "communication_timeout", level := SafetyLevel.critical,
        message := s!"Communication timeout: {dt}s",
        action := SafetyAction.stop, timestamp := now } now
  else s

/-- safety_monitor.py `_perform_safety_checks`: snapshot the manager's robot
state, then run every check against that snapshot in source order. -/
def SafetySystem.performSafetyChecks (s : SafetySystem) (now : ℚ) : SafetySystem :=
  let st := s.mgr.robot_state
  let s1 := s.checkConnection st now
  let s2 := s1.checkBattery st now
  let s3 := s2.checkTemperature st now
  let s4 := s3.checkOrientation st now
  let s5 := s4.checkJointLimits st now
  s5.checkCommunicationTimeout st now

/-- One iteration of safety_monitor.py `_monitoring_loop`: checks run only
while `safety_enabled` holds. -/
def SafetySystem.safetyTick (s : SafetySystem) (now : ℚ) : SafetySystem :=
  if s.mon.safety_enabled then s.performSafetyChecks now else s

/-- A run of safety ticks: before each tick, the manager's monitoring loop may
have replaced `robot_state` with a fresh observation (arbitrary here), then
the supervisor ticks at the given time. -/
def SafetySystem.runTicks (s : SafetySystem) : List (ℚ × RobotState) → SafetySystem
  | [] => s
  | (now, st) :: rest =>
      (SafetySystem.safetyTick { s with mgr.robot_state := st } now).runTicks rest

/-- motion_controller.py `MotionController`: the configured maxima
(`control.motion.max_linear_velocity` default 1.5,
`control.motion.max_angular_velocity` default 2.0). -/
structure MotionController where
  max_linear_vel : ℚ := 3/2
  max_angular_vel : ℚ := 2
  deriving DecidableEq

/-- The clamp `max(-limit, min(limit, v))` used by `move_velocity`. -/
def clampTo (limit v : ℚ) : ℚ :=
  max (-limit) (min limit v)

/-- motion_controller.py `move_velocity`: clamp all three velocities to the
controller's maxima, build a MotionCommand, and delegate to
`RobotManager.send_motion_command`. -/
def MotionController.moveVelocity (mc : MotionController) (m : RobotManager)
    (lx ly az : ℚ) (gait : String := "trot") (stepHeight : ℚ := 1/10) :
    Bool × RobotManager :=
  let c : MotionCommand :=
    { linear_x := clampTo mc.max_linear_vel lx,
      linear_y := clampTo mc.max_linear_vel ly,
      angular_z := clampTo mc.max_angular_vel az,
      step_height := stepHeight,
      gait_type := gait }
  m.sendMotionCommand c

/-- motion_controller.py `TrajectoryPoint`. -/
structure TrajectoryPoint where
  x : ℚ
  y : ℚ
  z : ℚ
  yaw : ℚ
  timestamp : ℚ
  deriving DecidableEq

/-- motion_controller.py `_smooth_step`: the smoothstep cubic `t·t·(3 − 2t)`. -/
def smoothStep (t : ℚ) : ℚ :=
  t * t * (3 - 2 * t)

/-- The travel-time estimate of motion_controller.py `_plan_trajectory`:
`max(distance / max_speed, angular_distance / (max_angular_vel · 0.5), 1.0)`,
with `angular_distance = |end_yaw − start_yaw|`.  `distance` is
`math.sqrt((end_x−start_x)² + (end_y−start_y)²)`, passed in explicitly as the
nonnegative square root (ℚ has no sqrt; callers certify it via `sqrtSpec`). -/
def MotionController.totalTimeOf (mc : MotionController)
    (start target : ℚ × ℚ × ℚ) (maxSpeed distance : ℚ) : ℚ :=
  let angularDistance := |target.2.2 - start.2.2|
  let linearTime := distance / maxSpeed
  let angularTime := angularDistance / (mc.max_angular_vel * (1/2))
  max (max linearTime angularTime) 1

/-- motion_controller.py `_plan_trajectory`: sample
`num_points = max(10, int(total_time · 10))` segments (Python `int` truncates;
`total_time ≥ 1` makes this the floor), with smoothstep-interpolated x, y,
yaw, fixed z = 0, and `timestamp = t · total_time` at `t = i / num_points`.
The `distance` parameter is the square root witness described at
`totalTimeOf`. -/
def MotionController.planTrajectory (mc : MotionController)
    (start target : ℚ × ℚ × ℚ) (maxSpeed distance : ℚ) : List TrajectoryPoint :=
  let totalTime := mc.totalTimeOf start target maxSpeed distance
  let numPoints := max 10 (⌊totalTime * 10⌋.toNat)
  (List.range (numPoints + 1)).map (fun (i : ℕ) =>
    let t : ℚ := (i : ℚ) / (numPoints : ℚ)
    let smoothT := smoothStep t
    { x := start.1 + (target.1 - start.1) * smoothT,
      y := start.2.1 + (target.2.1 - start.2.1) * smoothT,
      z := 0,
      yaw := start.2.2 + (target.2.2 - start.2.2) * smoothT,
      timestamp := t * totalTime })

/-- The defining property of the `distance` argument of `planTrajectory`:
`d` is the nonnegative square root of `sq`. -/
def sqrtSpec (sq d : ℚ) : Prop :=
  0 ≤ d ∧ d * d = sq

/-- A connected UDP-mode manager with an open socket and the latch clear:
the state `connect()` leaves behind in UDP mode. -/
def mUdp : RobotManager :=
  { protocol := Protocol.udp,
    robot_config := { ip_address := some "192.168.123.161", udp_port := some 8082 },
    is_connected := true,
    socket := some (),
    emergency_stop := false }

/-- A connected ros2-mode manager whose stand/sit service calls report
failure. -/
def mRos2Fail : RobotManager :=
  { protocol := Protocol.ros2,
    is_connected := true,
    emergency_stop := false,
    ros2_client := some { standResult := false, sitResult := false } }

/-- A UDP-mode manager whose robot configuration section lacks the required
`ip_address` key. -/
def mMissingIp : RobotManager :=
  { protocol := Protocol.udp,
    robot_config := { ip_address := none, udp_port := some 8082 } }

/-- A supervisor over a connected manager whose observed battery level (9%)
is below the default critical threshold (10%). -/
def sysLowBattery : SafetySystem :=
  { mon := {},
    mgr := { mUdp with robot_state :=
      { battery_level := 9, temperature := 35, is_connected := true, last_update := 0 } } }

/-- A second `battery_critical` alert, with a fresher message and
timestamp than the one a first low-battery tick stores. -/
def alertBat2 : SafetyAlert :=
  { id := "battery_critical", level := SafetyLevel.critical,
    message := "Critical battery level: 8%",
    action := SafetyAction.emergencyStop, timestamp := 7 }

/-- If every component of the command is within the configured maxima,
`_validate_motion_command` accepts. -/
theorem validateMotionCommand_of_bounds (m : RobotManager) (c : MotionCommand)
    (hx : |c.linear_x| ≤ m.robot_config.max_speed)
    (hy : |c.linear_y| ≤ m.robot_config.max_speed)
    (hz : |c.angular_z| ≤ m.robot_config.max_angular_speed) :
    m.validateMotionCommand c = true := by
  unfold RobotManager.validateMotionCommand
  dsimp only
  split_ifs with h1 h2 h3
  · exact absurd h1 (not_lt.mpr hx)
  · exact absurd h2 (not_lt.mpr hy)
  · exact absurd h3 (not_lt.mpr hz)
  · rfl

/-- The gate of `send_motion_command` on a valid command: true iff connected
and not latched (shared helper; the well-formedness hypothesis records that a
connected UDP manager holds an open socket, which is how `connect()` leaves
the state). -/
theorem sendGate_of_valid (m : RobotManager) (c : MotionCommand)
    (hwf : m.protocol = Protocol.udp → m.socket.isSome = true)
    (hv : m.validateMotionCommand c = true) :
    (m.sendMotionCommand c).1 = true ↔
      (m.is_connected = true ∧ m.emergency_stop = false) := by
  cases hc : m.is_connected with
  | false => simp [RobotManager.sendMotionCommand, hc]
  | true =>
    cases he : m.emergency_stop with
    | true => simp [RobotManager.sendMotionCommand, hc, he]
    | false =>
      cases hp : m.protocol with
      | udp =>
        have hs : m.socket.isSome = true := hwf hp
        cases hsock : m.socket with
        | none => rw [hsock] at hs; simp at hs
        | some u => simp [RobotManager.sendMotionCommand, hc, he, hv, hp, hsock]
      | ros2 => simp [RobotManager.sendMotionCommand, hc, he, hv, hp]

/-- Claim C1: for every MotionCommand whose linear_x, linear_y and angular_z
are all within the configured maxima, `send_motion_command` returns true if
and only if the manager is connected and the emergency-stop latch is not set.
(The well-formedness hypothesis records that in UDP mode a connected manager
holds an open socket, which is how `connect()` leaves the state.) -/
theorem send_motion_command_gate (m : RobotManager) (c : MotionCommand)
    (hwf : m.protocol = Protocol.udp → m.socket.isSome = true)
    (hx : |c.linear_x| ≤ m.robot_config.max_speed)
    (hy : |c.linear_y| ≤ m.robot_config.max_speed)
    (hz : |c.angular_z| ≤ m.robot_config.max_angular_speed) :
    (m.sendMotionCommand c).1 = true ↔
      (m.is_connected = true ∧ m.emergency_stop = false) :=
  sendGate_of_valid m c hwf (validateMotionCommand_of_bounds m c hx hy hz)

/-- Witness for C1: the gate equivalence evaluated on a connected UDP manager
and the all-zero command. -/
theorem send_motion_command_gate_witness :
    (mUdp.sendMotionCommand {}).1 = true ↔
      (mUdp.is_connected = true ∧ mUdp.emergency_stop = false) :=
  send_motion_command_gate mUdp {} (fun _ => rfl)
    (of_decide_eq_true (by with_unfolding_all rfl))
    (of_decide_eq_true (by with_unfolding_all rfl))
    (of_decide_eq_true (by with_unfolding_all rfl))

/-- Claim C3 (failing input): on a connected UDP manager with an open socket
and the latch clear, `emergency_stop_robot` sets the latch and broadcasts the
fixed "emergency_stop" signal to the error callbacks, but no all-zero stop
command reaches the transport: the latch is set before the internal
`send_motion_command` call, whose own gate then rejects the stop command, so
the packet log stays empty. -/
theorem emergency_stop_robot_does_not_dispatch_stop :
    mUdp.is_connected = true ∧
    mUdp.emergency_stop = false ∧
    mUdp.socket = some () ∧
    (mUdp.emergencyStopRobot).emergency_stop = true ∧
    (mUdp.emergencyStopRobot).sentPackets = [] ∧
    (mUdp.emergencyStopRobot).errorBroadcasts =
      [("emergency_stop", "Emergency stop activated")] :=
  ⟨rfl, rfl, rfl, rfl, rfl, rfl⟩

/-- Claim C9: with the packet (UDP) protocol selected and a required robot
key (`ip_address` or `udp_port`) missing, `initialize()` returns false with
the state untouched; the validation path raises nothing (the source logs a
descriptive error and returns, and the surrounding try/except would swallow
anything else). -/
theorem init_missing_udp_config_fails_cleanly (m : RobotManager)
    (hp : m.protocol = Protocol.udp)
    (hmiss : m.robot_config.ip_address = none ∨ m.robot_config.udp_port = none) :
    m.init = (false, m) := by
  unfold RobotManager.init RobotManager.validateConfig
  rcases hmiss with h | h <;> simp [hp, h]

/-- Shutting a client down twice is the same as doing it once. -/
theorem shutdown_idem (rc : Ros2Client) : rc.shutdown.shutdown = rc.shutdown := rfl

/-- Claim C6: `disconnect` is idempotent — a second call leaves the state of
the first call completely unchanged (its internal stop-command send is
refused by the gate because the manager is already disconnected), and either
way the end state has both connection flags false and, in UDP mode, the
socket released.  Both calls are total functions: the source wraps the body
in try/except, so no exception escapes. -/
theorem disconnect_idempotent (m : RobotManager) :
    m.disconnect.disconnect = m.disconnect ∧
    m.disconnect.is_connected = false ∧
    m.disconnect.robot_state.is_connected = false ∧
    (m.protocol = Protocol.udp → m.disconnect.socket = none) := by
  obtain ⟨prot, cfg, st, conn, sock, es, rc, ra, sp, smp, eb⟩ := m
  obtain ⟨mo, bat, tmp, pos, ori, vel, jp, sic, lu⟩ := st
  cases prot <;> cases conn <;> cases es <;> cases sock <;> cases rc <;>
    simp [RobotManager.disconnect, RobotManager.sendMotionCommand,
      RobotManager.validateMotionCommand, Ros2Client.shutdown,
      Ros2Client.publishTwist] <;>
    split_ifs <;> simp_all [shutdown_idem]

/-- Witness for C6: both disconnect calls on the connected UDP manager agree,
and the socket is released. -/
theorem disconnect_idempotent_witness :
    mUdp.disconnect.disconnect = mUdp.disconnect ∧ mUdp.disconnect.socket = none :=
  ⟨(disconnect_idempotent mUdp).1, (disconnect_idempotent mUdp).2.2.2 rfl⟩

/-- Witness for C9: a UDP configuration lacking `ip_address`. -/
theorem init_missing_udp_config_fails_cleanly_witness :
    mMissingIp.init = (false, mMissingIp) :=
  init_missing_udp_config_fails_cleanly mMissingIp rfl (Or.inl rfl)

/-- Counterexample to C8 as stated: on a connected ros2-mode manager whose
stand and sit service calls both report failure, `stand_up()` and
`sit_down()` still return true — the source stores the call's result in a
local `ok`, logs it, and returns true regardless, so the boolean result does
not reflect the call's reported success. -/
theorem stand_up_ignores_action_failure :
    mRos2Fail.protocol = Protocol.ros2 ∧
    mRos2Fail.is_connected = true ∧
    mRos2Fail.emergency_stop = false ∧
    mRos2Fail.ros2_client.map Ros2Client.standResult = some false ∧
    mRos2Fail.ros2_client.map Ros2Client.sitResult = some false ∧
    (mRos2Fail.standUp).1 = true ∧
    (mRos2Fail.sitDown).1 = true :=
  ⟨rfl, rfl, rfl, rfl, rfl, rfl, rfl⟩

/-- Claim C8 as amended: for the ros2 transport, `stand_up()`/`sit_down()`
perform the named action call (logged on the client when one is present) but
return true regardless of the success or failure that call reports; both set
RobotState.mode (Stand/Sit) after the attempt; and both return false with no
side effects when not connected or emergency-latched. -/
theorem ros2_stand_sit_behaviour (m : RobotManager)
    (hp : m.protocol = Protocol.ros2) :
    ((m.is_connected = true ∧ m.emergency_stop = false) →
      (m.standUp).1 = true ∧
      (m.standUp).2.robot_state.mode = RobotMode.stand ∧
      (m.sitDown).1 = true ∧
      (m.sitDown).2.robot_state.mode = RobotMode.sit ∧
      (∀ rc, m.ros2_client = some rc →
        (m.standUp).2.ros2_client =
          some { rc with actionCalls := rc.actionCalls ++ ["stand"] } ∧
        (m.sitDown).2.ros2_client =
          some { rc with actionCalls := rc.actionCalls ++ ["sit"] })) ∧
    ((m.is_connected = false ∨ m.emergency_stop = true) →
      m.standUp = (false, m) ∧ m.sitDown = (false, m)) := by
  constructor
  · rintro ⟨hc, he⟩
    refine ⟨?_, ?_, ?_, ?_, ?_⟩
    · simp [RobotManager.standUp, hp, hc, he]
    · simp [RobotManager.standUp, RobotManager.callStand, hp, hc, he]
    · simp [RobotManager.sitDown, hp, hc, he]
    · simp [RobotManager.sitDown, RobotManager.callSit, hp, hc, he]
    · intro rc hrc
      constructor <;>
        simp [RobotManager.standUp, RobotManager.sitDown,
          RobotManager.callStand, RobotManager.callSit, hp, hc, he, hrc]
  · rintro (h | h) <;>
      exact ⟨by simp [RobotManager.standUp, h], by simp [RobotManager.sitDown, h]⟩

/-- Witness for the amended C8: the connected ros2 manager with failing
service calls still ends in Stand/Sit mode. -/
theorem ros2_stand_sit_behaviour_witness :
    (mRos2Fail.standUp).2.robot_state.mode = RobotMode.stand ∧
    (mRos2Fail.sitDown).2.robot_state.mode = RobotMode.sit :=
  ⟨((ros2_stand_sit_behaviour mRos2Fail rfl).1 ⟨rfl, rfl⟩).2.1,
   ((ros2_stand_sit_behaviour mRos2Fail rfl).1 ⟨rfl, rfl⟩).2.2.2.1⟩

/-- Claim C10: `reset_emergency_stop` never touches the robot manager — the
manager component of the state is preserved exactly — so after a
supervisor-triggered emergency stop followed by `reset_emergency_stop()`,
the manager-level latch is still set and `send_motion_command` returns false
for every command. -/
theorem reset_emergency_stop_frame (s : SafetySystem) (reason : String) (now : ℚ)
    (hact : s.mon.emergency_stop_active = false) :
    (∀ s' : SafetySystem, s'.resetEmergencyStop.mgr = s'.mgr) ∧
    ((s.monEmergencyStop reason now).resetEmergencyStop).mgr.emergency_stop = true ∧
    (∀ c : MotionCommand,
      (((s.monEmergencyStop reason now).resetEmergencyStop).mgr.sendMotionCommand c).1
        = false) := by
  have hframe : ∀ s' : SafetySystem, s'.resetEmergencyStop.mgr = s'.mgr := by
    intro s'
    unfold SafetySystem.resetEmergencyStop
    split_ifs <;> rfl
  have hlatch :
      ((s.monEmergencyStop reason now).resetEmergencyStop).mgr.emergency_stop = true := by
    rw [hframe]
    simp [SafetySystem.monEmergencyStop, hact, RobotManager.emergencyStopRobot,
      RobotManager.sendMotionCommand]
  refine ⟨hframe, hlatch, ?_⟩
  intro c
  unfold RobotManager.sendMotionCommand
  rw [hlatch]
  simp

/-- Witness for C10: the default (never-latched) supervisor, after a
supervisor emergency stop and a reset, still has the manager latch set. -/
theorem reset_emergency_stop_frame_witness :
    (SafetySystem.resetEmergencyStop
      (SafetySystem.monEmergencyStop {} "Manual emergency stop" 0)).mgr.emergency_stop
      = true :=
  (reset_emergency_stop_frame {} "Manual emergency stop" 0 rfl).2.1

/-- The clamp used by `move_velocity` never exceeds a nonnegative limit in
absolute value. -/
theorem abs_clampTo_le (limit v : ℚ) (h : 0 ≤ limit) : |clampTo limit v| ≤ limit := by
  unfold clampTo
  rw [abs_le]
  exact ⟨le_max_left _ _, max_le (by linarith) (min_le_left _ _)⟩

/-- A command with an out-of-bounds component fails `_validate_motion_command`. -/
theorem validateMotionCommand_of_exceeds (m : RobotManager) (c : MotionCommand)
    (hexc : m.robot_config.max_speed < |c.linear_x| ∨
            m.robot_config.max_speed < |c.linear_y| ∨
            m.robot_config.max_angular_speed < |c.angular_z|) :
    m.validateMotionCommand c = false := by
  unfold RobotManager.validateMotionCommand
  dsimp only
  split_ifs with h1 h2 h3
  any_goals rfl
  rcases hexc with h | h | h
  · exact absurd h h1
  · exact absurd h h2
  · exact absurd h h3

/-- Claim C4: a velocity triple with any component beyond the corresponding
configured maximum is rejected by `send_motion_command` with no state change
at all, while `MotionController.move_velocity` on the same triple (connected,
latch clear) silently clamps every component to its limit and succeeds; a
clamped out-of-bounds component lands exactly on the limit, and in UDP mode
the delivered packet carries the clamped components.  In particular, with the
maxima at their default 1.5, `move_velocity(2.0, 0, 0)` delivers a command
with `linear_x = 1.5`.  (The hypotheses equate the controller's maxima with
the manager's, the single "configured maxima" the claim speaks of, and
require them nonnegative.) -/
theorem reject_vs_clamp (mc : MotionController) (m : RobotManager) (c : MotionCommand)
    (hL : mc.max_linear_vel = m.robot_config.max_speed)
    (hA : mc.max_angular_vel = m.robot_config.max_angular_speed)
    (hLpos : 0 ≤ mc.max_linear_vel)
    (hApos : 0 ≤ mc.max_angular_vel)
    (hexc : m.robot_config.max_speed < |c.linear_x| ∨
            m.robot_config.max_speed < |c.linear_y| ∨
            m.robot_config.max_angular_speed < |c.angular_z|)
    (hwf : m.protocol = Protocol.udp → m.socket.isSome = true)
    (hc : m.is_connected = true)
    (he : m.emergency_stop = false) :
    m.sendMotionCommand c = (false, m) ∧
    (mc.moveVelocity m c.linear_x c.linear_y c.angular_z).1 = true ∧
    (m.protocol = Protocol.udp →
      (mc.moveVelocity m c.linear_x c.linear_y c.angular_z).2.sentPackets =
        m.sentPackets ++
          [{ linear_x := clampTo mc.max_linear_vel c.linear_x,
             linear_y := clampTo mc.max_linear_vel c.linear_y,
             angular_z := clampTo mc.max_angular_vel c.angular_z }]) ∧
    (∀ lim v : ℚ, 0 ≤ lim → lim < |v| → |clampTo lim v| = lim) ∧
    (({} : MotionController).moveVelocity mUdp 2 0 0).1 = true ∧
    (({} : MotionController).moveVelocity mUdp 2 0 0).2.sentPackets =
      [{ linear_x := 3/2, linear_y := 0, angular_z := 0 }] := by
  have hvf : m.validateMotionCommand c = false :=
    validateMotionCommand_of_exceeds m c hexc
  have hvt : m.validateMotionCommand
      { linear_x := clampTo mc.max_linear_vel c.linear_x,
        linear_y := clampTo mc.max_linear_vel c.linear_y,
        angular_z := clampTo mc.max_angular_vel c.angular_z } = true := by
    refine validateMotionCommand_of_bounds m _ ?_ ?_ ?_
    · exact hL ▸ abs_clampTo_le _ _ hLpos
    · exact hL ▸ abs_clampTo_le _ _ hLpos
    · exact hA ▸ abs_clampTo_le _ _ hApos
  refine ⟨?_, ?_, ?_, ?_, ?_, ?_⟩
  · unfold RobotManager.sendMotionCommand
    simp [hc, he, hvf]
  · unfold MotionController.moveVelocity
    dsimp only
    exact (sendGate_of_valid m _ hwf hvt).mpr ⟨hc, he⟩
  · intro hp
    have hs : m.socket.isSome = true := hwf hp
    cases hsock : m.socket with
    | none => rw [hsock] at hs; simp at hs
    | some u =>
        unfold MotionController.moveVelocity RobotManager.sendMotionCommand
        simp only [one_div] at hvt
        simp [hc, he, hvt, hp, hsock]
  · intro lim v hlim hv
    rcases lt_abs.mp hv with h | h
    · rw [clampTo, min_eq_left h.le, max_eq_right (by linarith)]
      exact abs_of_nonneg hlim
    · rw [clampTo, min_eq_right (by linarith), max_eq_left (by linarith)]
      rw [abs_neg]
      exact abs_of_nonneg hlim
  · exact of_decide_eq_true (by with_unfolding_all rfl)
  · exact of_decide_eq_true (by with_unfolding_all rfl)

/-- Witness for C4: the manager rejects `linear_x = 2` unchanged while the
controller clamps it to 1.5 and the packet is delivered. -/
theorem reject_vs_clamp_witness :
    mUdp.sendMotionCommand { linear_x := 2 } = (false, mUdp) ∧
    (({} : MotionController).moveVelocity mUdp 2 0 0).2.sentPackets =
      [{ linear_x := 3/2, linear_y := 0, angular_z := 0 }] := by
  have h := reject_vs_clamp {} mUdp { linear_x := 2 } rfl rfl
    (of_decide_eq_true (by with_unfolding_all rfl))
    (of_decide_eq_true (by with_unfolding_all rfl))
    (Or.inl (of_decide_eq_true (by with_unfolding_all rfl)))
    (fun _ => rfl) rfl rfl
  exact ⟨h.1, h.2.2.2.2.2⟩

/-- The supervisor's `emergency_stop` always leaves the latch set (it either
was already set, or is set now). -/
theorem monEmergencyStop_active (s : SafetySystem) (r : String) (n : ℚ) :
    (s.monEmergencyStop r n).mon.emergency_stop_active = true := by
  cases h : s.mon.emergency_stop_active <;> simp [SafetySystem.monEmergencyStop, h]

/-- `_handle_alert` never clears the supervisor latch. -/
theorem handleAlert_active_of_active (s : SafetySystem) (a : SafetyAlert) (n : ℚ)
    (h : s.mon.emergency_stop_active = true) :
    (s.handleAlert a n).mon.emergency_stop_active = true := by
  cases ha : a.action <;>
    simp [SafetySystem.handleAlert, SafetySystem.executeSafetyAction, ha,
      monEmergencyStop_active, h]

/-- Handling an alert whose action is EMERGENCY_STOP sets the latch. -/
theorem handleAlert_active_of_estop (s : SafetySystem) (a : SafetyAlert) (n : ℚ)
    (ha : a.action = SafetyAction.emergencyStop) :
    (s.handleAlert a n).mon.emergency_stop_active = true := by
  simp [SafetySystem.handleAlert, SafetySystem.executeSafetyAction, ha,
    monEmergencyStop_active]

/-- `emergency_stop` does not change the thresholds. -/
theorem monEmergencyStop_config (s : SafetySystem) (r : String) (n : ℚ) :
    (s.monEmergencyStop r n).mon.config = s.mon.config := by
  cases h : s.mon.emergency_stop_active <;> simp [SafetySystem.monEmergencyStop, h]

/-- `_handle_alert` does not change the thresholds. -/
theorem handleAlert_config (s : SafetySystem) (a : SafetyAlert) (n : ℚ) :
    (s.handleAlert a n).mon.config = s.mon.config := by
  cases ha : a.action <;>
    simp [SafetySystem.handleAlert, SafetySystem.executeSafetyAction, ha,
      monEmergencyStop_config]

/-- The connection check does not change the thresholds. -/
theorem checkConnection_config (s : SafetySystem) (st : RobotState) (n : ℚ) :
    (s.checkConnection st n).mon.config = s.mon.config := by
  unfold SafetySystem.checkConnection
  split_ifs <;> simp [handleAlert_config]

/-- None of the per-tick checks clears the supervisor latch. -/
theorem checks_active_of_active (s : SafetySystem) (st : RobotState) (n : ℚ)
    (h : s.mon.emergency_stop_active = true) :
    (s.checkConnection st n).mon.emergency_stop_active = true ∧
    (s.checkBattery st n).mon.emergency_stop_active = true ∧
    (s.checkTemperature st n).mon.emergency_stop_active = true ∧
    (s.checkOrientation st n).mon.emergency_stop_active = true ∧
    (s.checkJointLimits st n).mon.emergency_stop_active = true ∧
    (s.checkCommunicationTimeout st n).mon.emergency_stop_active = true := by
  unfold SafetySystem.checkConnection SafetySystem.checkBattery
    SafetySystem.checkTemperature SafetySystem.checkOrientation
    SafetySystem.checkJointLimits SafetySystem.checkCommunicationTimeout
  refine ⟨?_, ?_, ?_, ?_, ?_, ?_⟩ <;> dsimp only <;>
    first
      | exact h
      | (split_ifs <;> simp [handleAlert_active_of_active, h])

/-- A whole `_perform_safety_checks` pass never clears the supervisor latch. -/
theorem performSafetyChecks_active_of_active (s : SafetySystem) (n : ℚ)
    (h : s.mon.emergency_stop_active = true) :
    (s.performSafetyChecks n).mon.emergency_stop_active = true := by
  unfold SafetySystem.performSafetyChecks
  dsimp only
  exact (checks_active_of_active _ _ _
    ((checks_active_of_active _ _ _
      ((checks_active_of_active _ _ _
        ((checks_active_of_active _ _ _
          ((checks_active_of_active _ _ _ h).1)).2.1)).2.2.1)).2.2.2.1)).2.2.2.2.2

/-- A monitoring-loop tick never clears the supervisor latch. -/
theorem safetyTick_active_of_active (s : SafetySystem) (n : ℚ)
    (h : s.mon.emergency_stop_active = true) :
    (s.safetyTick n).mon.emergency_stop_active = true := by
  unfold SafetySystem.safetyTick
  split_ifs <;> simp [performSafetyChecks_active_of_active, h]

/-- Any run of subsequent ticks, with arbitrary interleaved robot-state
observations, keeps the latch set. -/
theorem runTicks_active_of_active (l : List (ℚ × RobotState)) (s : SafetySystem)
    (h : s.mon.emergency_stop_active = true) :
    (s.runTicks l).mon.emergency_stop_active = true := by
  induction l generalizing s with
  | nil => exact h
  | cons p rest ih =>
      exact ih _ (safetyTick_active_of_active _ _ h)

/-- A battery observation at or below the critical threshold makes
`_check_battery` latch the supervisor. -/
theorem checkBattery_sets_active (s : SafetySystem) (st : RobotState) (n : ℚ)
    (hb : st.battery_level ≤ s.mon.config.battery_critical) :
    (s.checkBattery st n).mon.emergency_stop_active = true := by
  unfold SafetySystem.checkBattery
  dsimp only
  rw [if_pos hb]
  exact handleAlert_active_of_estop _ _ _ rfl

/-- Claim C2: once a safety tick observes `battery_level` at or below the
configured critical threshold, `emergency_stop_active` is true after that
tick and stays true across every subsequent tick whatever battery values are
observed later; among the supervisor's operations only
`reset_emergency_stop()` sets it back to false, which it does whenever the
latch is set. -/
theorem battery_critical_latch (s : SafetySystem) (now : ℚ)
    (hen : s.mon.safety_enabled = true)
    (hb : s.mgr.robot_state.battery_level ≤ s.mon.config.battery_critical) :
    (s.safetyTick now).mon.emergency_stop_active = true ∧
    (∀ l : List (ℚ × RobotState),
      ((s.safetyTick now).runTicks l).mon.emergency_stop_active = true) ∧
    (∀ s' : SafetySystem, s'.mon.emergency_stop_active = true →
      ∀ n : ℚ, (s'.safetyTick n).mon.emergency_stop_active = true) ∧
    (∀ s' : SafetySystem, s'.mon.emergency_stop_active = true →
      s'.resetEmergencyStop.mon.emergency_stop_active = false) := by
  have hset : (s.safetyTick now).mon.emergency_stop_active = true := by
    unfold SafetySystem.safetyTick
    rw [if_pos hen]
    unfold SafetySystem.performSafetyChecks
    dsimp only
    have h2 : ((s.checkConnection s.mgr.robot_state now).checkBattery
        s.mgr.robot_state now).mon.emergency_stop_active = true := by
      refine checkBattery_sets_active _ _ _ ?_
      rw [checkConnection_config]
      exact hb
    exact (checks_active_of_active _ _ _
      ((checks_active_of_active _ _ _
        ((checks_active_of_active _ _ _ h2).2.2.1)).2.2.2.1)).2.2.2.2.2
  refine ⟨hset, ?_, ?_, ?_⟩
  · intro l
    exact runTicks_active_of_active l _ hset
  · intro s' h n
    exact safetyTick_active_of_active s' n h
  · intro s' h
    simp [SafetySystem.resetEmergencyStop, h]

/-- Witness for C2: the low-battery system latches on the first tick, stays
latched over two further ticks with a recovered battery, and a reset clears
the supervisor latch. -/
theorem battery_critical_latch_witness :
    ((sysLowBattery.safetyTick 0).runTicks
        [(1, { battery_level := 90, is_connected := true }),
         (2, { battery_level := 90, is_connected := true })]).mon.emergency_stop_active
      = true :=
  (battery_critical_latch sysLowBattery 0 rfl
    (of_decide_eq_true (by with_unfolding_all rfl))).2.1
    [(1, { battery_level := 90, is_connected := true }),
     (2, { battery_level := 90, is_connected := true })]

/-- Keys present after a dict insert: the old keys plus the inserted one. -/
theorem mem_keys_dictInsert (x k : String) (v : SafetyAlert)
    (l : List (String × SafetyAlert)) :
    x ∈ (dictInsert k v l).map Prod.fst ↔ (x ∈ l.map Prod.fst ∨ x = k) := by
  induction l with
  | nil => simp [dictInsert]
  | cons p rest ih =>
      obtain ⟨k', v'⟩ := p
      by_cases hk : k' = k
      · subst hk
        simp [dictInsert]
        tauto
      · simp [dictInsert, hk, ih]
        tauto

/-- Dict insertion preserves distinctness of keys. -/
theorem dictInsert_keys_nodup (k : String) (v : SafetyAlert)
    (l : List (String × SafetyAlert)) (h : (l.map Prod.fst).Nodup) :
    ((dictInsert k v l).map Prod.fst).Nodup := by
  induction l with
  | nil => simp [dictInsert]
  | cons p rest ih =>
      obtain ⟨k', v'⟩ := p
      simp only [List.map_cons, List.nodup_cons] at h
      by_cases hk : k' = k
      · subst hk
        simpa [dictInsert] using h
      · simp only [dictInsert, if_neg hk, List.map_cons, List.nodup_cons]
        refine ⟨?_, ih h.2⟩
        rw [mem_keys_dictInsert]
        rintro (hmem | heq)
        · exact h.1 hmem
        · exact hk heq

/-- Looking up the freshly inserted key yields the new value. -/
theorem lookup_dictInsert_self (k : String) (v : SafetyAlert)
    (l : List (String × SafetyAlert)) :
    (dictInsert k v l).lookup k = some v := by
  induction l with
  | nil => simp [dictInsert, List.lookup]
  | cons p rest ih =>
      obtain ⟨k', v'⟩ := p
      by_cases hk : k' = k
      · simp [dictInsert, hk, List.lookup]
      · have hbeq : (k == k') = false := beq_eq_false_iff_ne.mpr (Ne.symm hk)
        simp [dictInsert, hk, List.lookup, hbeq, ih]

/-- Inserting under a different key leaves a lookup unchanged. -/
theorem lookup_dictInsert_other (x k : String) (v : SafetyAlert)
    (l : List (String × SafetyAlert)) (hne : x ≠ k) :
    (dictInsert k v l).lookup x = l.lookup x := by
  have hbeq : (x == k) = false := beq_eq_false_iff_ne.mpr hne
  induction l with
  | nil => simp [dictInsert, List.lookup, hbeq]
  | cons p rest ih =>
      obtain ⟨k', v'⟩ := p
      by_cases hk : k' = k
      · subst hk
        simp [dictInsert, List.lookup, hbeq]
      · simp [dictInsert, hk, List.lookup, ih]

/-- With distinct keys, exactly one entry carries the inserted key. -/
theorem countP_dictInsert_self (k : String) (v : SafetyAlert)
    (l : List (String × SafetyAlert)) (h : (l.map Prod.fst).Nodup) :
    (dictInsert k v l).countP (fun p => p.1 == k) = 1 := by
  induction l with
  | nil => simp [dictInsert]
  | cons p rest ih =>
      obtain ⟨k', v'⟩ := p
      simp only [List.map_cons, List.nodup_cons] at h
      by_cases hk : k' = k
      · subst hk
        have hzero : rest.countP (fun p => p.1 == k') = 0 := by
          rw [List.countP_eq_zero]
          intro a ha
          simp only [beq_iff_eq]
          intro heq
          exact h.1 (heq ▸ List.mem_map_of_mem Prod.fst ha)
        simp [dictInsert, List.countP_cons, hzero]
      · simp [dictInsert, hk, List.countP_cons, Ne.symm hk, ih h.2]

/-- Inserting under a different key does not change how many entries carry a
given key. -/
theorem countP_dictInsert_other (x k : String) (v : SafetyAlert)
    (l : List (String × SafetyAlert)) (hne : x ≠ k) :
    (dictInsert k v l).countP (fun p => p.1 == x) = l.countP (fun p => p.1 == x) := by
  induction l with
  | nil => simp [dictInsert, Ne.symm hne]
  | cons p rest ih =>
      obtain ⟨k', v'⟩ := p
      by_cases hk : k' = k
      · subst hk
        simp [dictInsert, List.countP_cons, Ne.symm hne]
      · simp [dictInsert, hk, List.countP_cons, ih]

/-- What `_handle_alert` does to the alert map: it stores the alert under its
id, and — when the action escalates to a fresh supervisor emergency stop —
additionally stores the derived `emergency_stop` alert. -/
theorem handleAlert_alerts (s : SafetySystem) (a : SafetyAlert) (n : ℚ) :
    (s.handleAlert a n).mon.active_alerts = dictInsert a.id a s.mon.active_alerts ∨
    (s.handleAlert a n).mon.active_alerts =
      dictInsert "emergency_stop"
        { id := "emergency_stop", level := SafetyLevel.emergency, message := a.message,
          action := SafetyAction.emergencyStop, timestamp := n }
        (dictInsert a.id a s.mon.active_alerts) := by
  cases ha : a.action <;>
    simp [SafetySystem.handleAlert, SafetySystem.executeSafetyAction,
      SafetySystem.monEmergencyStop, ha]
  cases h : s.mon.emergency_stop_active <;> simp

/-- `_handle_alert` keeps the alert keys distinct. -/
theorem handleAlert_keys_nodup (s : SafetySystem) (a : SafetyAlert) (n : ℚ)
    (h : (s.mon.active_alerts.map Prod.fst).Nodup) :
    ((s.handleAlert a n).mon.active_alerts.map Prod.fst).Nodup := by
  rcases handleAlert_alerts s a n with he | he <;> rw [he]
  · exact dictInsert_keys_nodup _ _ _ h
  · exact dictInsert_keys_nodup _ _ _ (dictInsert_keys_nodup _ _ _ h)

/-- None of the per-tick checks breaks key distinctness of the alert map. -/
theorem checks_keys_nodup (s : SafetySystem) (st : RobotState) (n : ℚ)
    (h : (s.mon.active_alerts.map Prod.fst).Nodup) :
    ((s.checkConnection st n).mon.active_alerts.map Prod.fst).Nodup ∧
    ((s.checkBattery st n).mon.active_alerts.map Prod.fst).Nodup ∧
    ((s.checkTemperature st n).mon.active_alerts.map Prod.fst).Nodup ∧
    ((s.checkOrientation st n).mon.active_alerts.map Prod.fst).Nodup ∧
    ((s.checkJointLimits st n).mon.active_alerts.map Prod.fst).Nodup ∧
    ((s.checkCommunicationTimeout st n).mon.active_alerts.map Prod.fst).Nodup := by
  unfold SafetySystem.checkConnection SafetySystem.checkBattery
    SafetySystem.checkTemperature SafetySystem.checkOrientation
    SafetySystem.checkJointLimits SafetySystem.checkCommunicationTimeout
  refine ⟨?_, ?_, ?_, ?_, ?_, ?_⟩ <;> dsimp only <;>
    first
      | exact h
      | (split_ifs <;>
          first
            | exact h
            | exact handleAlert_keys_nodup _ _ _ h
            | exact handleAlert_keys_nodup _ _ _ (handleAlert_keys_nodup _ _ _ h))

/-- A whole `_perform_safety_checks` pass keeps the alert keys distinct. -/
theorem performSafetyChecks_keys_nodup (s : SafetySystem) (n : ℚ)
    (h : (s.mon.active_alerts.map Prod.fst).Nodup) :
    ((s.performSafetyChecks n).mon.active_alerts.map Prod.fst).Nodup := by
  unfold SafetySystem.performSafetyChecks
  dsimp only
  exact (checks_keys_nodup _ _ _
    ((checks_keys_nodup _ _ _
      ((checks_keys_nodup _ _ _
        ((checks_keys_nodup _ _ _
          ((checks_keys_nodup _ _ _ h).1)).2.1)).2.2.1)).2.2.2.1)).2.2.2.2.2

/-- A tick keeps the alert keys distinct. -/
theorem safetyTick_keys_nodup (s : SafetySystem) (n : ℚ)
    (h : (s.mon.active_alerts.map Prod.fst).Nodup) :
    ((s.safetyTick n).mon.active_alerts.map Prod.fst).Nodup := by
  unfold SafetySystem.safetyTick
  split_ifs <;> first | exact h | exact performSafetyChecks_keys_nodup _ _ h

/-- Claim C7: the active-alerts map keeps at most one entry per alert id.
Handling any alert preserves key distinctness and leaves exactly one entry
under the alert's id; when the id is not the derived `emergency_stop` id,
that entry is the freshly handled alert itself — latest message and
timestamp, updated in place rather than duplicated.  The distinctness
invariant also survives every sequence of safety-check ticks. -/
theorem alert_dedup (s : SafetySystem) (a : SafetyAlert) (n : ℚ)
    (h : (s.mon.active_alerts.map Prod.fst).Nodup) :
    ((s.handleAlert a n).mon.active_alerts.map Prod.fst).Nodup ∧
    (s.handleAlert a n).mon.active_alerts.countP (fun p => p.1 == a.id) = 1 ∧
    (a.id ≠ "emergency_stop" →
      (s.handleAlert a n).mon.active_alerts.lookup a.id = some a) ∧
    (∀ l : List (ℚ × RobotState),
      ((s.runTicks l).mon.active_alerts.map Prod.fst).Nodup) := by
  refine ⟨handleAlert_keys_nodup s a n h, ?_, ?_, ?_⟩
  · rcases handleAlert_alerts s a n with he | he <;> rw [he]
    · exact countP_dictInsert_self _ _ _ h
    · by_cases hid : a.id = "emergency_stop"
      · rw [hid]
        exact countP_dictInsert_self _ _ _ (dictInsert_keys_nodup _ _ _ h)
      · rw [countP_dictInsert_other _ _ _ _ hid]
        exact countP_dictInsert_self _ _ _ h
  · intro hid
    rcases handleAlert_alerts s a n with he | he <;> rw [he]
    · exact lookup_dictInsert_self _ _ _
    · rw [lookup_dictInsert_other _ _ _ _ hid]
      exact lookup_dictInsert_self _ _ _
  · intro l
    induction l generalizing s with
    | nil => exact h
    | cons p rest ih =>
        exact ih _ (safetyTick_keys_nodup _ _ h)

/-- Witness for C7: handling a second `battery_critical` alert with a new
message and timestamp over a map that already holds one leaves a single
`battery_critical` entry carrying the latest alert. -/
theorem alert_dedup_witness :
    (SafetySystem.handleAlert (sysLowBattery.safetyTick 0)
        alertBat2 7).mon.active_alerts.countP
      (fun p => p.1 == "battery_critical") = 1 ∧
    (SafetySystem.handleAlert (sysLowBattery.safetyTick 0)
        alertBat2 7).mon.active_alerts.lookup "battery_critical" = some alertBat2 :=
  ⟨(alert_dedup (sysLowBattery.safetyTick 0) alertBat2 7
      (safetyTick_keys_nodup sysLowBattery 0 List.nodup_nil)).2.1,
   (alert_dedup (sysLowBattery.safetyTick 0) alertBat2 7
      (safetyTick_keys_nodup sysLowBattery 0 List.nodup_nil)).2.2.1 (by decide)⟩

/-- The travel-time estimate is at least the 1-second minimum. -/
theorem one_le_totalTimeOf (mc : MotionController) (s t : ℚ × ℚ × ℚ) (ms d : ℚ) :
    1 ≤ mc.totalTimeOf s t ms d := by
  unfold MotionController.totalTimeOf
  dsimp only
  exact le_max_right _ _

/-- Claim C5: planning from (0,0,0) to (0,0,0) yields a trajectory whose
every point equals the start pose; planning from (0,0,0) to (1,0,0) with
max_speed 1 (distance 1, certified by `sqrtSpec`) yields strictly increasing
timestamps running from 0 to 1 (so the trajectory spans at least 1 second)
and strictly increasing x coordinates across all sample parameters; the
total time is computed as
max(distance/max_speed, angular_distance/(0.5·max_angular_vel), 1);
the trajectory always carries at least 10 points per second of total time;
and the interpolation uses the smoothstep cubic 3t² − 2t³. -/
theorem trajectory_planning (mc : MotionController) (maxSpeed : ℚ)
    (hms : 0 < maxSpeed) :
    (sqrtSpec ((0 - 0)^2 + (0 - 0)^2) 0 ∧
      ∀ p ∈ mc.planTrajectory (0, 0, 0) (0, 0, 0) maxSpeed 0,
        p.x = 0 ∧ p.y = 0 ∧ p.yaw = 0) ∧
    (sqrtSpec ((1 - 0)^2 + (0 - 0)^2) 1 ∧
      List.Pairwise (· < ·)
        ((MotionController.planTrajectory {} (0, 0, 0) (1, 0, 0) 1 1).map
          TrajectoryPoint.timestamp) ∧
      ((MotionController.planTrajectory {} (0, 0, 0) (1, 0, 0) 1 1).map
          TrajectoryPoint.timestamp).head? = some 0 ∧
      ((MotionController.planTrajectory {} (0, 0, 0) (1, 0, 0) 1 1).map
          TrajectoryPoint.timestamp).getLast? = some 1 ∧
      List.Pairwise (· < ·)
        ((MotionController.planTrajectory {} (0, 0, 0) (1, 0, 0) 1 1).map
          TrajectoryPoint.x)) ∧
    (∀ s t : ℚ × ℚ × ℚ, ∀ ms d : ℚ,
      mc.totalTimeOf s t ms d =
        max (max (d / ms) (|t.2.2 - s.2.2| / ((1/2) * mc.max_angular_vel))) 1) ∧
    (∀ s t : ℚ × ℚ × ℚ, ∀ ms d : ℚ,
      10 * mc.totalTimeOf s t ms d ≤ ((mc.planTrajectory s t ms d).length : ℚ)) ∧
    (∀ x : ℚ, smoothStep x = 3 * x^2 - 2 * x^3) := by
  refine ⟨⟨⟨le_refl 0, by norm_num⟩, ?_⟩,
    ⟨⟨by norm_num, by norm_num⟩,
     of_decide_eq_true (by with_unfolding_all rfl),
     of_decide_eq_true (by with_unfolding_all rfl),
     of_decide_eq_true (by with_unfolding_all rfl),
     of_decide_eq_true (by with_unfolding_all rfl)⟩,
    ?_, ?_, ?_⟩
  · intro p hp
    unfold MotionController.planTrajectory at hp
    dsimp only at hp
    rw [List.mem_map] at hp
    obtain ⟨i, _, rfl⟩ := hp
    refine ⟨by dsimp only; ring, by dsimp only; ring, by dsimp only; ring⟩
  · intro s t ms d
    unfold MotionController.totalTimeOf
    dsimp only
    rw [mul_comm mc.max_angular_vel ((1:ℚ)/2)]
  · intro s t ms d
    unfold MotionController.planTrajectory
    dsimp only
    simp only [List.length_map, List.length_range]
    have h1 : (1:ℚ) ≤ mc.totalTimeOf s t ms d := one_le_totalTimeOf mc s t ms d
    have hfl0 : (0:ℤ) ≤ ⌊mc.totalTimeOf s t ms d * 10⌋ :=
      Int.floor_nonneg.mpr (by linarith)
    have hlt : mc.totalTimeOf s t ms d * 10 <
        (⌊mc.totalTimeOf s t ms d * 10⌋ : ℚ) + 1 := Int.lt_floor_add_one _
    have hcast : ((⌊mc.totalTimeOf s t ms d * 10⌋.toNat : ℕ) : ℚ) =
        ((⌊mc.totalTimeOf s t ms d * 10⌋ : ℤ) : ℚ) := by
      exact_mod_cast congrArg (fun z : ℤ => (z : ℚ)) (Int.toNat_of_nonneg hfl0)
    have hmax : ((⌊mc.totalTimeOf s t ms d * 10⌋.toNat : ℕ) : ℚ) ≤
        ((max 10 ⌊mc.totalTimeOf s t ms d * 10⌋.toNat : ℕ) : ℚ) :=
      Nat.cast_le.mpr (le_max_right _ _)
    push_cast
    push_cast at hmax hcast
    linarith [mul_comm (10:ℚ) (mc.totalTimeOf s t ms d)]
  · intro x
    unfold smoothStep
    ring

/-- Witness for C5: the sampling-density bound evaluated on a concrete plan
(distance 2 at max speed 1/2: total time 4, 41 sample points). -/
theorem trajectory_planning_witness :
    10 * MotionController.totalTimeOf {} (0, 0, 0) (2, 0, 0) (1/2) 2 ≤
      ((MotionController.planTrajectory {} (0, 0, 0) (2, 0, 0) (1/2) 2).length : ℚ) :=
  (trajectory_planning {} (1/2) (by norm_num)).2.2.2.1 (0, 0, 0) (2, 0, 0) (1/2) 2

end ButlerConnect
